import Mathlib

/-!
Shallow embedding of the enrichment collection pipeline of
`naver_finance_reader.py` and of the listing-page variant
`naver_search_top_stocks.py`, together with proofs about the claims of
the specification.

Conventions used throughout:
* HTTP fetches are modelled as oracles: a value of type `Except Unit π`
  (a transport/parse failure or a structured payload), or, for the
  paginated bulk fetch, a function `Nat → List ρ` giving the (possibly
  empty) page returned by each successive call.  `get_rising_stocks`
  already converts its own failures into an empty frame, so its page
  oracle directly returns a record list.
* Python strings are modelled as `String`; the character-level Python
  operations used by the source (`strip`, single-character `replace`,
  slicing `[:50]`, `split`) are embedded as explicit `List Char`
  operations, which the kernel can evaluate.
* Dates are modelled as already-parsed integers (`Int`); the source's
  `datetime` comparisons become integer comparisons, and an item's
  formatted display date becomes `toString` of that integer.
-/

namespace StockAnalysis

/-! ### Paginated Collector (`collect_all_data`, base stage, lines 328-362)

The base-stage loop of `collect_all_data`:

    while total_collected < max_stocks:
        df = self.get_rising_stocks(page_size=page_size, start_idx=start_idx)
        if df.empty: break
        all_data.append(df); total_collected += len(df)
        if len(df) < page_size: break
        start_idx += page_size

`pages k` is the frame `df` returned by the `(k+1)`-st call to
`get_rising_stocks` (the call with `start_idx = k * page_size`); the
accumulated frames are concatenated at the end (`pd.concat`), which we
fuse into a flat accumulator `acc`. -/

/-- One iteration of the base-stage loop: `k` is the page index (so
`start_idx = k * pageSize`), `total` is `total_collected`, `acc` the
records accumulated so far. -/
def collect_pages_go (pages : Nat → List ρ) (maxStocks pageSize : Nat) :
    Nat → Nat → List ρ → List ρ
  | k, total, acc =>
    if _h : total < maxStocks then
      if _he : (pages k).isEmpty then acc
      else if _hs : (pages k).length < pageSize then acc ++ pages k
      else collect_pages_go pages maxStocks pageSize (k + 1)
        (total + (pages k).length) (acc ++ pages k)
    else acc
termination_by _k total _ => maxStocks - total
decreasing_by
  simp only [List.isEmpty_iff] at _he
  have hpos : 0 < (pages k).length := List.length_pos.mpr _he
  omega

/-- The base stage of `collect_all_data`: run the pagination loop from
`start_idx = 0`, `total_collected = 0`, with an empty accumulator. -/
def collect_all_data (pages : Nat → List ρ) (maxStocks pageSize : Nat) : List ρ :=
  collect_pages_go pages maxStocks pageSize 0 0 []

/-- Number of bulk-fetch calls (`get_rising_stocks` invocations) the
base-stage loop performs; one per loop iteration that passes the
`total_collected < max_stocks` check. -/
def count_page_fetches (pages : Nat → List ρ) (maxStocks pageSize : Nat) :
    Nat → Nat → Nat
  | k, total =>
    if _h : total < maxStocks then
      if _he : (pages k).isEmpty then 1
      else if _hs : (pages k).length < pageSize then 1
      else 1 + count_page_fetches pages maxStocks pageSize (k + 1)
        (total + (pages k).length)
    else 0
termination_by _k total => maxStocks - total
decreasing_by
  simp only [List.isEmpty_iff] at _he
  have hpos : 0 < (pages k).length := List.length_pos.mpr _he
  omega

/-- Concrete fetch sequence returning pages of sizes 100, 100, 37 and
nothing afterwards (bulk-fetch scenario fixture). -/
def pagesA : Nat → List Nat := fun k =>
  if k = 0 then List.replicate 100 0
  else if k = 1 then List.replicate 100 1
  else if k = 2 then List.replicate 37 2
  else []

/-- Concrete fetch sequence returning a full page of 100 records and then
an empty page (bulk-fetch scenario fixture). -/
def pagesB : Nat → List Nat := fun k =>
  if k = 0 then List.replicate 100 0 else []

/-! ### Row Enricher: facet fetches (`get_recent_news` lines 204-244,
`get_recent_notices` lines 246-288, `get_recent_ir` lines 290-326)

Provider items are modelled with their dates already parsed to `Int`
(the source's `strptime`/`fromisoformat` step); an item whose date
string is missing or malformed is skipped by the source before the
cutoff comparison and is therefore outside the model.  A JSON payload
without the expected top-level structure behaves exactly like an empty
item list and is likewise represented by `.ok []`. -/

/-- One `{'제목': …, '일자': …, '링크': …}` triple as appended to a facet
result list. -/
structure FacetItem where
  title : String
  date : String
  link : String
deriving DecidableEq, Repr

/-- One provider news item (an element of `cluster['items']`). -/
structure NewsItem where
  date : Int
  title : String
  officeId : String
  articleId : String
deriving DecidableEq, Repr

/-- One provider filing item (an element of the `/notice` response). -/
structure NoticeItem where
  date : Int
  title : String
  bizdateSeq : String
deriving DecidableEq, Repr

/-- One provider IR item (an element of the `/ir` response). -/
structure IRItem where
  date : Int
  title : String
deriving DecidableEq, Repr

/-- News deep link: `https://n.news.naver.com/mnews/article/{officeId}/{articleId}`. -/
def news_link (officeId articleId : String) : String :=
  "https://n.news.naver.com/mnews/article/" ++ officeId ++ "/" ++ articleId

/-- The dict appended for one accepted news item. -/
def news_entry (p : NewsItem) : FacetItem :=
  { title := p.title, date := toString p.date,
    link := news_link p.officeId p.articleId }

/-- DART filing link: built from the first underscore-delimited segment of
`bizdateSeq` when an underscore is present (`'_' in biz_seq`), empty
otherwise. -/
def dart_link (bizSeq : String) : String :=
  if bizSeq.data.any (fun c => c == '_') then
    "https://dart.fss.or.kr/dsaf001/main.do?rcpNo=" ++
      String.mk (bizSeq.data.takeWhile (fun c => c != '_'))
  else ""

/-- The dict appended for one accepted filing item. -/
def notice_entry (p : NoticeItem) : FacetItem :=
  { title := p.title, date := toString p.date, link := dart_link p.bizdateSeq }

/-- The dict appended for one accepted IR item (`링크` is always empty). -/
def ir_entry (p : IRItem) : FacetItem :=
  { title := p.title, date := toString p.date, link := "" }

/-- The shared per-item loop of the three facet fetchers: for each item,
if its date is at or after the cutoff (`item_date >= cutoff_date`),
append its entry and stop once `maxItems` entries have accumulated;
items older than the cutoff are skipped without stopping the scan. -/
def recent_items_loop (dateOf : π → Int) (entry : π → FacetItem)
    (cutoff : Int) (maxItems : Nat) : List π → List FacetItem → List FacetItem
  | [], acc => acc
  | p :: rest, acc =>
    if cutoff ≤ dateOf p then
      if maxItems ≤ (acc ++ [entry p]).length then acc ++ [entry p]
      else recent_items_loop dateOf entry cutoff maxItems rest (acc ++ [entry p])
    else recent_items_loop dateOf entry cutoff maxItems rest acc

/-- The outer loop of `get_recent_news` over `data['clusters']`; after each
cluster's inner loop the accumulated count is checked against `max_news`. -/
def news_clusters_loop (cutoff : Int) (maxNews : Nat) :
    List (List NewsItem) → List FacetItem → List FacetItem
  | [], acc => acc
  | cluster :: rest, acc =>
    if maxNews ≤ (recent_items_loop NewsItem.date news_entry cutoff maxNews
        cluster acc).length then
      recent_items_loop NewsItem.date news_entry cutoff maxNews cluster acc
    else news_clusters_loop cutoff maxNews rest
      (recent_items_loop NewsItem.date news_entry cutoff maxNews cluster acc)

/-- `get_recent_news`: a transport/parse failure yields the (empty) list
collected so far; a payload yields the cluster scan. -/
def get_recent_news (fetch : Except Unit (List (List NewsItem)))
    (cutoff : Int) (maxNews : Nat) : List FacetItem :=
  match fetch with
  | .error _ => []
  | .ok clusters => news_clusters_loop cutoff maxNews clusters []

/-- `get_recent_notices`: filing-facet fetch. -/
def get_recent_notices (fetch : Except Unit (List NoticeItem))
    (cutoff : Int) (maxNotices : Nat) : List FacetItem :=
  match fetch with
  | .error _ => []
  | .ok items => recent_items_loop NoticeItem.date notice_entry cutoff maxNotices items []

/-- `get_recent_ir`: IR-facet fetch. -/
def get_recent_ir (fetch : Except Unit (List IRItem))
    (cutoff : Int) (maxIr : Nat) : List FacetItem :=
  match fetch with
  | .error _ => []
  | .ok items => recent_items_loop IRItem.date ir_entry cutoff maxIr items []

/-! ### Row Enricher: profile fetch (`get_stock_detail`, lines 179-202) -/

/-- The `/detail` JSON payload fields the source reads. -/
structure DetailPayload where
  upJongName : String
  comment1 : String
  comment2 : String
  comment3 : String
deriving DecidableEq, Repr

/-- The dict returned by `get_stock_detail`: 업종 and 종목설명. -/
structure StockDetail where
  sector : String
  description : String
deriving DecidableEq, Repr

/-- `' '.join(descriptions)`. -/
def join_with_space : List String → String
  | [] => ""
  | [s] => s
  | s :: rest => s ++ " " ++ join_with_space rest

/-- `get_stock_detail`: concatenates the non-empty comment fragments with
single spaces; any failure yields both fields empty. -/
def get_stock_detail (fetch : Except Unit DetailPayload) : StockDetail :=
  match fetch with
  | .error _ => { sector := "", description := "" }
  | .ok d =>
    { sector := d.upJongName,
      description := join_with_space
        (([d.comment1, d.comment2, d.comment3]).filter (fun s => !s.data.isEmpty)) }

/-! ### Facet-enrichment stage of `collect_all_data` (lines 380-425)

For each record it writes, per facet, exactly 3 slots: news and filing
slots as {title, date, link} columns (`뉴스i`/`뉴스i_일자`/`뉴스i_링크`,
`공시i`/…), IR slots as {title, date} columns only (`IRi`/`IRi_일자`);
titles are truncated to their first 50 characters, and positions with no
item get empty strings. -/

/-- Python string slicing `s[:n]`. -/
def py_take (n : Nat) (s : String) : String := String.mk (s.data.take n)

/-- The three columns written for slot `i` of a linked facet
(news/filing): title (truncated to 50 chars), date, link — or empty
strings when fewer than `i + 1` items were found. -/
def slot_triple (colName : String) (i : Nat) (items : List FacetItem) :
    List (String × String) :=
  if h : i < items.length then
    [(colName ++ toString (i + 1), py_take 50 (items.get ⟨i, h⟩).title),
     (colName ++ toString (i + 1) ++ "_일자", (items.get ⟨i, h⟩).date),
     (colName ++ toString (i + 1) ++ "_링크", (items.get ⟨i, h⟩).link)]
  else
    [(colName ++ toString (i + 1), ""),
     (colName ++ toString (i + 1) ++ "_일자", ""),
     (colName ++ toString (i + 1) ++ "_링크", "")]

/-- The two columns written for slot `i` of the IR facet: title
(truncated to 50 chars) and date; the source writes no IR link column. -/
def slot_pair (colName : String) (i : Nat) (items : List FacetItem) :
    List (String × String) :=
  if h : i < items.length then
    [(colName ++ toString (i + 1), py_take 50 (items.get ⟨i, h⟩).title),
     (colName ++ toString (i + 1) ++ "_일자", (items.get ⟨i, h⟩).date)]
  else
    [(colName ++ toString (i + 1), ""),
     (colName ++ toString (i + 1) ++ "_일자", "")]

/-- All facet columns written onto one record by the enrichment pass
(the two unrolled `for i in range(3)` loops per facet). -/
def enrich_facet_columns (news notices ir : List FacetItem) :
    List (String × String) :=
  (slot_triple "뉴스" 0 news ++ slot_triple "뉴스" 1 news ++ slot_triple "뉴스" 2 news) ++
  (slot_triple "공시" 0 notices ++ slot_triple "공시" 1 notices ++ slot_triple "공시" 2 notices) ++
  (slot_pair "IR" 0 ir ++ slot_pair "IR" 1 ir ++ slot_pair "IR" 2 ir)

/-- The 24 facet column names materialized on every record. -/
def facet_column_names : List String :=
  ["뉴스1", "뉴스1_일자", "뉴스1_링크", "뉴스2", "뉴스2_일자", "뉴스2_링크",
   "뉴스3", "뉴스3_일자", "뉴스3_링크",
   "공시1", "공시1_일자", "공시1_링크", "공시2", "공시2_일자", "공시2_링크",
   "공시3", "공시3_일자", "공시3_링크",
   "IR1", "IR1_일자", "IR2", "IR2_일자", "IR3", "IR3_일자"]

/-- The indexed `for idx, row in result_df.iterrows()` loop shared by the
two enrichment stages: applies `f` to every row in order, never skipping
or aborting. -/
def enrich_rows_loop (f : Nat → σ → τ) : List σ → Nat → List τ
  | [], _ => []
  | r :: rest, idx => f idx r :: enrich_rows_loop f rest (idx + 1)

/-- Detail-enrichment stage: each record is paired with the result of its
own profile fetch (`detailF idx` is the fetch outcome for row `idx`). -/
def enrich_detail_stage (detailF : Nat → Except Unit DetailPayload)
    (records : List σ) : List (σ × StockDetail) :=
  enrich_rows_loop (fun idx r => (r, get_stock_detail (detailF idx))) records 0

/-- The facet columns written for one record, from its three facet
fetch outcomes. -/
def enrich_facets_row (newsF : Except Unit (List (List NewsItem)))
    (noticeF : Except Unit (List NoticeItem))
    (irF : Except Unit (List IRItem)) (cutoff : Int) : List (String × String) :=
  enrich_facet_columns (get_recent_news newsF cutoff 3)
    (get_recent_notices noticeF cutoff 3) (get_recent_ir irF cutoff 3)

/-- Facet-enrichment stage: each record is widened with the facet columns
computed from its own three fetches. -/
def enrich_facets_stage (newsF : Nat → Except Unit (List (List NewsItem)))
    (noticeF : Nat → Except Unit (List NoticeItem))
    (irF : Nat → Except Unit (List IRItem)) (cutoff : Int)
    (records : List σ) : List (σ × List (String × String)) :=
  enrich_rows_loop
    (fun idx r => (r, enrich_facets_row (newsF idx) (noticeF idx) (irF idx) cutoff))
    records 0

/-- Oracle fixture (failure-isolation scenario): row 0's profile fetch
fails, every other row's succeeds. -/
def failDetailF : Nat → Except Unit DetailPayload := fun idx =>
  if idx = 0 then .error () else .ok ⟨"전기전자", "설명 하나", "", "설명 셋"⟩

/-- Oracle fixture (failure-isolation scenario): row 0's news fetch
fails, every other row's succeeds. -/
def failNewsF : Nat → Except Unit (List (List NewsItem)) := fun idx =>
  if idx = 0 then .error () else .ok [[⟨6, "기사", "001", "0001"⟩]]

/-- Oracle fixture: every row's filing fetch succeeds. -/
def okNoticeF : Nat → Except Unit (List NoticeItem) := fun _ =>
  .ok [⟨6, "공시", "20250102000123_00"⟩]

/-- Oracle fixture: every row's IR fetch succeeds. -/
def okIrF : Nat → Except Unit (List IRItem) := fun _ => .ok [⟨6, "IR안내"⟩]

/-! ### Field Mapper (`get_rising_stocks`, lines 29-49 and 78-104, 167-168)

pandas `Series.map(dict)` sends a key absent from the dict to `NaN` (the
missing marker), modelled as `none`; `dict.get(str(x), '')` guarded by
`pd.notna(x)` sends an absent key (and `NaN` input) to `''`. -/

def sosok_map : List (String × String) :=
  [("0", "코스피"), ("1", "코스닥")]

def status_tag_map : List (String × String) :=
  [("0", "정상"), ("1", "관리종목"), ("2", "투자주의"), ("9", "거래정지")]

def risefall_map : List (String × String) :=
  [("1", "상한가"), ("2", "상승"), ("3", "보합"), ("4", "하한가"), ("5", "하락")]

def management_reason_map : List (String × String) :=
  [("6024", "자본잠식"), ("6025", "영업손실 발생"), ("6026", "매출액 미달"),
   ("6027", "법정관리"), ("6028", "주권 재상장"), ("6029", "지배구조 변경"),
   ("6051", "기타"), ("6052", "합병"), ("6053", "분할"), ("6054", "주식이전")]

def market_alert_map : List (String × String) :=
  [("00", "없음"), ("01", "투자주의"), ("02", "투자경고"), ("03", "투자위험")]

/-- `df[col].map(table)` (pandas dict map): a code absent from the table
becomes the missing marker `NaN`, i.e. `none`. Used for 시장구분 (`sosok`),
상태 (`statusTag`), and 등락구분 (`risefall`). -/
def map_series_dict (table : List (String × String)) (code : String) :
    Option String :=
  table.lookup code

/-- `table.get(str(x), '') if pd.notna(x) else ''`: a missing raw value or
an unknown code resolves to the empty string. Used for 관리사유
(`managementReasonCode`) and 시장경보 (`marketAlertType`). -/
def map_code_or_empty (table : List (String × String)) (raw : Option String) :
    String :=
  match raw with
  | none => ""
  | some c => (table.lookup c).getD ""

/-- Exchange-code normalization, line 168: `'A' + code`, applied
unconditionally to every collected 종목코드 (the listing-page variant does
the same at `naver_search_top_stocks.py` line 160: `'A' + href_code`). -/
def normalize_stock_code (code : String) : String := "A" ++ code

/-! ### Listing-page numeric parser (`naver_search_top_stocks.py`,
`clean_text` lines 29-33 and `parse_number` lines 35-45) -/

/-- Removes every occurrence of one character (Python
`str.replace(c, '')` for a single-character pattern). -/
def remove_all_char (c : Char) (s : String) : String :=
  String.mk (s.data.filter (fun x => x != c))

/-- Python `str.strip()`: drop leading and trailing whitespace. -/
def py_strip (s : String) : String :=
  String.mk (List.reverse (List.dropWhile Char.isWhitespace
    (List.reverse (List.dropWhile Char.isWhitespace s.data))))

/-- `clean_text`: strip, then remove every newline, tab and comma. -/
def clean_text (t : String) : String :=
  remove_all_char ',' (remove_all_char '\t' (remove_all_char '\n' (py_strip t)))

/-- The `+` / `-` / `%` removal step of `parse_number`. -/
def strip_sign_chars (s : String) : String :=
  remove_all_char '%' (remove_all_char '-' (remove_all_char '+' s))

/-- Value of a digit run. -/
def digits_val (l : List Char) : Nat :=
  l.foldl (fun acc c => acc * 10 + (c.toNat - 48)) 0

/-- Split a character list at every occurrence of `sep`
(Python `str.split(sep)` for a single-character separator). -/
def split_on_char (sep : Char) : List Char → List (List Char)
  | [] => [[]]
  | c :: rest =>
    if c = sep then [] :: split_on_char sep rest
    else
      match split_on_char sep rest with
      | [] => [[c]]
      | p :: ps => (c :: p) :: ps

/-- A Python `float` value as `float()` can produce it from the unsigned
strings `parse_number` feeds it: NaN, positive infinity (the sign
characters have already been stripped), or a finite value. -/
inductive PyFloat where
  | nan
  | inf
  | finite (q : Rat)
deriving DecidableEq, Repr

/-- Python comparison `v >= 0.0`: false for NaN (every comparison with
NaN is false), true for positive infinity, the rational comparison for a
finite value. -/
def PyFloat.IsNonneg : PyFloat → Prop
  | .nan => False
  | .inf => True
  | .finite q => 0 ≤ q

/-- Python `str.lower()`. -/
def py_lower (s : String) : String := String.mk (s.data.map Char.toLower)

/-- Mantissa part of a float literal: `digits`, `digits.digits`,
`.digits` or `digits.` (at least one digit overall). -/
def py_mantissa? (m : List Char) : Option Rat :=
  match split_on_char '.' m with
  | [a] =>
    if a.isEmpty then none
    else if a.all Char.isDigit then some ((digits_val a : Nat) : Rat)
    else none
  | [a, b] =>
    if a.isEmpty && b.isEmpty then none
    else if a.all Char.isDigit && b.all Char.isDigit then
      some ((digits_val a : Rat) + (digits_val b : Rat) / (10 : Rat) ^ b.length)
    else none
  | _ => none

/-- Python `float(s)` on the unsigned strings `parse_number` feeds it
(`+`/`-` are stripped upstream, so neither the mantissa nor the exponent
carries a sign): the case-insensitive spellings `nan` and
`inf`/`infinity` parse to NaN and positive infinity — `float('nan')`
succeeds, it does not raise — and `mantissa[e digits]` parses to its
finite value. Digit-group underscores are not modelled (they too can
only produce non-negative finite values here). -/
def py_float? (s : String) : Option PyFloat :=
  if py_lower s = "nan" then some PyFloat.nan
  else if py_lower s = "inf" ∨ py_lower s = "infinity" then some PyFloat.inf
  else
    match split_on_char 'e' (py_lower s).data with
    | [m] => (py_mantissa? m).map PyFloat.finite
    | [m, ex] =>
      if ex.isEmpty then none
      else if ex.all Char.isDigit then
        (py_mantissa? m).map (fun q => PyFloat.finite (q * (10 : Rat) ^ digits_val ex))
      else none
    | _ => none

/-- `parse_number`: clean the text, return `None` for empty or `'N/A'`,
strip `+`/`-`/`%`, convert with `float()`; a conversion failure is caught
by the enclosing `try` and yields `None`, but a successful conversion —
including `float('nan')` — is returned as is. -/
def parse_number (text : String) : Option PyFloat :=
  if clean_text text = "" ∨ clean_text text = "N/A" then none
  else py_float? (strip_sign_chars (clean_text text))

/-! ### Spreadsheet Materializer (`save_to_excel_with_hyperlinks`,
lines 429-494)

A worksheet row is a list of cells aligned with the header row; a cell
carries its value, an optional hyperlink target, and whether the
distinguishing font style was applied. -/

structure Cell where
  value : String
  hyper : Option String
  styled : Bool
deriving DecidableEq, Repr

/-- The six facet title columns the hyperlink pass visits. -/
def link_title_columns : List String :=
  ["뉴스1", "뉴스2", "뉴스3", "공시1", "공시2", "공시3"]

/-- The paired link column of a title column. -/
def link_col_name (name : String) : String := name ++ "_링크"

/-- One step of the hyperlink pass on one row: if the title column is
present in the header, read the paired link cell; when its value is
non-empty (`if link_cell.value:`), turn the title cell into a styled
hyperlink to exactly that value. -/
def set_hyperlink_in_row (header : List String) (row : List Cell)
    (name : String) : List Cell :=
  if name ∈ header then
    match row.get? (header.indexOf (link_col_name name)),
        row.get? (header.indexOf name) with
    | some linkCell, some titleCell =>
      if linkCell.value = "" then row
      else row.set (header.indexOf name)
        { titleCell with hyper := some linkCell.value, styled := true }
    | _, _ => row
  else row

/-- The hyperlink pass over one data row: visit the six facet title
columns in order. -/
def apply_hyperlinks_row (header : List String) (row : List Cell) : List Cell :=
  link_title_columns.foldl (set_hyperlink_in_row header) row

/-- The hyperlink pass over all data rows. -/
def apply_hyperlinks (header : List String) (rows : List (List Cell)) :
    List (List Cell) :=
  rows.map (apply_hyperlinks_row header)

/-- Substring containment test on character lists. -/
def has_sub (pat : List Char) : List Char → Bool
  | [] => pat.isEmpty
  | c :: rest => pat.isPrefixOf (c :: rest) || has_sub pat rest

/-- The column-hiding predicate: `'_링크' in col_name`. -/
def is_link_column (name : String) : Bool := has_sub "_링크".data name.data

/-- Hidden-state of every header column after the hiding pass. -/
def hidden_flags (header : List String) : List Bool :=
  header.map is_link_column

lemma collect_pages_go_length_le (pages : Nat → List ρ) (maxStocks pageSize : Nat)
    (hpg : ∀ i, (pages i).length ≤ pageSize) :
    ∀ k total acc, acc.length = total → total ≤ maxStocks - 1 + pageSize →
      (collect_pages_go pages maxStocks pageSize k total acc).length ≤
        maxStocks - 1 + pageSize := by
  intro k total acc
  induction k, total, acc using collect_pages_go.induct pages maxStocks pageSize with
  | case1 k total acc h he =>
    intro hacc hb
    rw [collect_pages_go]
    simp only [dif_pos h, dif_pos he]
    exact hacc ▸ hb
  | case2 k total acc h he hs =>
    intro hacc hb
    rw [collect_pages_go]
    simp only [dif_pos h, dif_neg he, dif_pos hs]
    have := hpg k
    simp only [List.length_append, hacc]
    omega
  | case3 k total acc h he hs ih =>
    intro hacc hb
    rw [collect_pages_go]
    simp only [dif_pos h, dif_neg he, dif_neg hs]
    refine ih ?_ ?_
    · simp [hacc]
    · have := hpg k
      omega
  | case4 k total acc h =>
    intro hacc hb
    rw [collect_pages_go]
    simp only [dif_neg h]
    exact hacc ▸ hb

lemma count_page_fetches_le (pages : Nat → List ρ) (maxStocks pageSize : Nat)
    (hp : 0 < pageSize) :
    ∀ k total, count_page_fetches pages maxStocks pageSize k total ≤
      (maxStocks - total - 1) / pageSize + 1 := by
  intro k total
  induction k, total using count_page_fetches.induct pages maxStocks pageSize with
  | case1 k total h he =>
    rw [count_page_fetches]
    simp only [dif_pos h, dif_pos he]
    exact Nat.succ_le_succ (Nat.zero_le _)
  | case2 k total h he hs =>
    rw [count_page_fetches]
    simp only [dif_pos h, dif_neg he, dif_pos hs]
    exact Nat.succ_le_succ (Nat.zero_le _)
  | case3 k total h he hs ih =>
    rw [count_page_fetches]
    simp only [dif_pos h, dif_neg he, dif_neg hs]
    have hlen : pageSize ≤ (pages k).length := Nat.le_of_not_lt hs
    by_cases hnext : total + (pages k).length < maxStocks
    · -- the loop will run again: one page's worth of budget is consumed
      have hstep : maxStocks - (total + (pages k).length) - 1 + pageSize ≤
          maxStocks - total - 1 := by omega
      have h1 : (maxStocks - (total + (pages k).length) - 1) / pageSize + 1 ≤
          (maxStocks - total - 1) / pageSize := by
        calc (maxStocks - (total + (pages k).length) - 1) / pageSize + 1
            = (maxStocks - (total + (pages k).length) - 1 + pageSize) / pageSize := by
              rw [Nat.add_div_right _ hp]
          _ ≤ (maxStocks - total - 1) / pageSize := Nat.div_le_div_right hstep
      have h2 : count_page_fetches pages maxStocks pageSize (k + 1)
          (total + (pages k).length) ≤ (maxStocks - total - 1) / pageSize :=
        le_trans ih h1
      omega
    · -- next check fails: the recursive call contributes no further fetch
      have hz : count_page_fetches pages maxStocks pageSize (k + 1)
          (total + (pages k).length) = 0 := by
        rw [count_page_fetches]
        simp only [dif_neg hnext]
      rw [hz]
      exact Nat.succ_le_succ (Nat.zero_le _)
  | case4 k total h =>
    rw [count_page_fetches]
    simp only [dif_neg h]
    exact Nat.zero_le _

/-- **C1.** For every `maxStocks > 0` and `pageSize > 0` and every sequence of
fetched pages (each of at most `pageSize` records, as requested from the
provider), the base-stage loop of `collect_all_data` performs at most
`ceil(maxStocks / pageSize) + 1` bulk fetches, and the number of records it
returns is at most `maxStocks + pageSize - 1`: the accumulated-count check
happens before the fetch and a page is appended in full before the next
check. -/
theorem collect_all_data_iteration_and_size_bound (pages : Nat → List ρ)
    (maxStocks pageSize : Nat) (hm : 0 < maxStocks) (hp : 0 < pageSize)
    (hpg : ∀ i, (pages i).length ≤ pageSize) :
    count_page_fetches pages maxStocks pageSize 0 0 ≤
      (maxStocks + pageSize - 1) / pageSize + 1 ∧
    (collect_all_data pages maxStocks pageSize).length ≤ maxStocks + pageSize - 1 := by
  constructor
  · have h1 := count_page_fetches_le pages maxStocks pageSize hp 0 0
    have h2 : (maxStocks - 0 - 1) / pageSize ≤ (maxStocks + pageSize - 1) / pageSize :=
      Nat.div_le_div_right (by omega)
    omega
  · have h1 := collect_pages_go_length_le pages maxStocks pageSize hpg 0 0 [] rfl
      (by omega)
    have h2 : maxStocks - 1 + pageSize = maxStocks + pageSize - 1 := by omega
    rw [collect_all_data]
    omega

/-- Witness for C1 at a concrete input: every fetch returns two records,
`maxStocks = 5`, `pageSize = 2`. -/
theorem collect_all_data_iteration_and_size_bound_witness :
    count_page_fetches (fun _ => [10, 20]) 5 2 0 0 ≤ (5 + 2 - 1) / 2 + 1 ∧
    (collect_all_data (fun _ => [10, 20]) 5 2).length ≤ 5 + 2 - 1 :=
  collect_all_data_iteration_and_size_bound (fun _ => [10, 20]) 5 2
    (by decide) (by decide) (fun i => by simp)

/-! Step equations for the base-stage loop, used to replay concrete
fetch scenarios. -/

lemma collect_pages_go_stop_empty (pages : Nat → List ρ)
    {maxStocks pageSize k total : Nat} (acc : List ρ)
    (h : total < maxStocks) (he : pages k = []) :
    collect_pages_go pages maxStocks pageSize k total acc = acc := by
  rw [collect_pages_go, dif_pos h, dif_pos (by simp [List.isEmpty_iff, he])]

lemma collect_pages_go_stop_short (pages : Nat → List ρ)
    {maxStocks pageSize k total : Nat} (acc : List ρ)
    (h : total < maxStocks) (hne : pages k ≠ [])
    (hs : (pages k).length < pageSize) :
    collect_pages_go pages maxStocks pageSize k total acc = acc ++ pages k := by
  rw [collect_pages_go, dif_pos h,
    dif_neg (by simp only [List.isEmpty_iff]; exact hne), dif_pos hs]

lemma collect_pages_go_step (pages : Nat → List ρ)
    {maxStocks pageSize k total : Nat} (acc : List ρ)
    (h : total < maxStocks) (hne : pages k ≠ [])
    (hs : ¬ (pages k).length < pageSize) :
    collect_pages_go pages maxStocks pageSize k total acc =
      collect_pages_go pages maxStocks pageSize (k + 1)
        (total + (pages k).length) (acc ++ pages k) := by
  rw [collect_pages_go, dif_pos h,
    dif_neg (by simp only [List.isEmpty_iff]; exact hne), dif_neg hs]

lemma count_page_fetches_stop_empty (pages : Nat → List ρ)
    {maxStocks pageSize k total : Nat}
    (h : total < maxStocks) (he : pages k = []) :
    count_page_fetches pages maxStocks pageSize k total = 1 := by
  rw [count_page_fetches, dif_pos h, dif_pos (by simp [List.isEmpty_iff, he])]

lemma count_page_fetches_stop_short (pages : Nat → List ρ)
    {maxStocks pageSize k total : Nat}
    (h : total < maxStocks) (hne : pages k ≠ [])
    (hs : (pages k).length < pageSize) :
    count_page_fetches pages maxStocks pageSize k total = 1 := by
  rw [count_page_fetches, dif_pos h,
    dif_neg (by simp only [List.isEmpty_iff]; exact hne), dif_pos hs]

lemma count_page_fetches_step (pages : Nat → List ρ)
    {maxStocks pageSize k total : Nat}
    (h : total < maxStocks) (hne : pages k ≠ [])
    (hs : ¬ (pages k).length < pageSize) :
    count_page_fetches pages maxStocks pageSize k total =
      1 + count_page_fetches pages maxStocks pageSize (k + 1)
        (total + (pages k).length) := by
  rw [count_page_fetches, dif_pos h,
    dif_neg (by simp only [List.isEmpty_iff]; exact hne), dif_neg hs]

lemma ne_nil_of_length_eq {l : List ρ} {n : Nat} (h : l.length = n) (hn : n ≠ 0) :
    l ≠ [] := by
  intro hnil
  rw [hnil] at h
  simp at h
  omega

/-- **C4.** Short-page and empty-page stop behavior of the Paginated
Collector, at `max_stocks = 1000` (the orchestrator's configured maximum)
and `page_size = 100` (the loop's fixed page size):
* if the fetches return pages of sizes `[100, 100, 37]`, the collector
  returns exactly 237 records — the three pages concatenated in order —
  and performs exactly 3 fetches (no fourth fetch is made);
* if the first fetch returns a full page of 100 records and the second
  fetch returns an empty page, the collector returns exactly the first
  page's records, performing exactly 2 fetches. -/
theorem collect_all_data_page_stop_scenarios :
    (∀ pages : Nat → List ρ, (pages 0).length = 100 → (pages 1).length = 100 →
      (pages 2).length = 37 →
      collect_all_data pages 1000 100 = pages 0 ++ pages 1 ++ pages 2 ∧
      (collect_all_data pages 1000 100).length = 237 ∧
      count_page_fetches pages 1000 100 0 0 = 3) ∧
    (∀ pages : Nat → List ρ, (pages 0).length = 100 → pages 1 = [] →
      collect_all_data pages 1000 100 = pages 0 ∧
      count_page_fetches pages 1000 100 0 0 = 2) := by
  constructor
  · intro pages h0 h1 h2
    have hne0 : pages 0 ≠ [] := ne_nil_of_length_eq h0 (by decide)
    have hne1 : pages 1 ≠ [] := ne_nil_of_length_eq h1 (by decide)
    have hne2 : pages 2 ≠ [] := ne_nil_of_length_eq h2 (by decide)
    have heq : collect_all_data pages 1000 100 = pages 0 ++ pages 1 ++ pages 2 := by
      rw [collect_all_data,
        collect_pages_go_step pages [] (by decide) hne0 (by omega),
        collect_pages_go_step pages ([] ++ pages 0) (by omega) hne1 (by omega),
        collect_pages_go_stop_short pages ([] ++ pages 0 ++ pages 1) (by omega) hne2
          (by omega),
        List.nil_append]
    refine ⟨heq, ?_, ?_⟩
    · rw [heq]
      simp [h0, h1, h2]
    · rw [count_page_fetches_step pages (by decide) hne0 (by omega),
        count_page_fetches_step pages (by omega) hne1 (by omega),
        count_page_fetches_stop_short pages (by omega) hne2 (by omega)]
  · intro pages h0 h1
    have hne0 : pages 0 ≠ [] := ne_nil_of_length_eq h0 (by decide)
    constructor
    · rw [collect_all_data,
        collect_pages_go_step pages [] (by decide) hne0 (by omega),
        collect_pages_go_stop_empty pages ([] ++ pages 0) (by omega) h1,
        List.nil_append]
    · rw [count_page_fetches_step pages (by decide) hne0 (by omega),
        count_page_fetches_stop_empty pages (by omega) h1]

/-- Witness for C4: concrete page sequences realizing both scenarios. -/
theorem collect_all_data_page_stop_scenarios_witness :
    (collect_all_data pagesA 1000 100 = pagesA 0 ++ pagesA 1 ++ pagesA 2 ∧
      (collect_all_data pagesA 1000 100).length = 237 ∧
      count_page_fetches pagesA 1000 100 0 0 = 3) ∧
    (collect_all_data pagesB 1000 100 = pagesB 0 ∧
      count_page_fetches pagesB 1000 100 0 0 = 2) :=
  ⟨collect_all_data_page_stop_scenarios.1 pagesA (by simp [pagesA])
      (by simp [pagesA]) (by simp [pagesA]),
    collect_all_data_page_stop_scenarios.2 pagesB (by simp [pagesB])
      (by simp [pagesB])⟩

/-! ### C2: fixed-width facet slots -/

lemma slot_triple_keys (colName : String) (i : Nat) (items : List FacetItem) :
    (slot_triple colName i items).map Prod.fst =
      [colName ++ toString (i + 1), colName ++ toString (i + 1) ++ "_일자",
       colName ++ toString (i + 1) ++ "_링크"] := by
  unfold slot_triple
  split <;> rfl

lemma slot_pair_keys (colName : String) (i : Nat) (items : List FacetItem) :
    (slot_pair colName i items).map Prod.fst =
      [colName ++ toString (i + 1), colName ++ toString (i + 1) ++ "_일자"] := by
  unfold slot_pair
  split <;> rfl

/-- **C2 (counterexample).** The claim says every emitted record carries
3 IR slots each materialized as a {title, date, link} triple; but the
enrichment pass writes no IR link column at all (lines 413-419 write only
`IRi` and `IRi_일자`), so already the first IR slot of a record has no
link position. -/
theorem enrich_ir_link_column_missing :
    ¬ ("IR1_링크" ∈ (enrich_facet_columns [] [] []).map Prod.fst) := by
  decide

/-- **C2 (amended).** Every record emitted by the facet-enrichment stage
materializes exactly 3 news, 3 filing and 3 IR slots — always the same 24
columns regardless of how many real items were found — where news and
filing slots are {title, date, link} triples but IR slots are
{title, date} pairs (no IR link column), and every slot position beyond
the number of items found is filled with empty strings. -/
theorem enrich_facet_columns_fixed_slots (news notices ir : List FacetItem) :
    (enrich_facet_columns news notices ir).map Prod.fst = facet_column_names ∧
    (∀ i, news.length ≤ i →
      (slot_triple "뉴스" i news).map Prod.snd = ["", "", ""]) ∧
    (∀ i, notices.length ≤ i →
      (slot_triple "공시" i notices).map Prod.snd = ["", "", ""]) ∧
    (∀ i, ir.length ≤ i →
      (slot_pair "IR" i ir).map Prod.snd = ["", ""]) := by
  refine ⟨?_, ?_, ?_, ?_⟩
  · simp only [enrich_facet_columns, List.map_append, slot_triple_keys,
      slot_pair_keys]
    rfl
  · intro i hi
    rw [slot_triple, dif_neg (by omega)]
    rfl
  · intro i hi
    rw [slot_triple, dif_neg (by omega)]
    rfl
  · intro i hi
    rw [slot_pair, dif_neg (by omega)]
    rfl

/-- Witness for C2 (amended) at a concrete input: one news item, no
filings, no IR items. -/
theorem enrich_facet_columns_fixed_slots_witness :
    (enrich_facet_columns [⟨"기사 제목", "2025-01-02", "https://n.news.naver.com/a"⟩]
        [] []).map Prod.fst = facet_column_names ∧
    (slot_triple "뉴스" 1
        [⟨"기사 제목", "2025-01-02", "https://n.news.naver.com/a"⟩]).map Prod.snd =
      ["", "", ""] ∧
    (slot_triple "공시" 0 ([] : List FacetItem)).map Prod.snd = ["", "", ""] ∧
    (slot_pair "IR" 0 ([] : List FacetItem)).map Prod.snd = ["", ""] :=
  ⟨(enrich_facet_columns_fixed_slots _ [] []).1,
   (enrich_facet_columns_fixed_slots
      [⟨"기사 제목", "2025-01-02", "https://n.news.naver.com/a"⟩] [] []).2.1 1
      (by decide),
   (enrich_facet_columns_fixed_slots [] [] []).2.2.1 0 (by decide),
   (enrich_facet_columns_fixed_slots [] [] []).2.2.2 0 (by decide)⟩

/-! ### C10: slot titles are truncated to 50 characters -/

/-- **C10.** For every filled slot (index `i` with an `i`-th item found),
the title written into the table is `title[:50]` — the first at most 50
characters of the provider-supplied title, a prefix of it of length at
most 50 — while the slot's date and link are written in full. This covers
the news/filing slot shape (`slot_triple`) and the IR slot shape
(`slot_pair`). -/
theorem facet_slot_title_truncated (colName : String) (items : List FacetItem)
    (i : Nat) (h : i < items.length) :
    slot_triple colName i items =
      [(colName ++ toString (i + 1), py_take 50 (items.get ⟨i, h⟩).title),
       (colName ++ toString (i + 1) ++ "_일자", (items.get ⟨i, h⟩).date),
       (colName ++ toString (i + 1) ++ "_링크", (items.get ⟨i, h⟩).link)] ∧
    slot_pair colName i items =
      [(colName ++ toString (i + 1), py_take 50 (items.get ⟨i, h⟩).title),
       (colName ++ toString (i + 1) ++ "_일자", (items.get ⟨i, h⟩).date)] ∧
    (py_take 50 (items.get ⟨i, h⟩).title).data <+: (items.get ⟨i, h⟩).title.data ∧
    (py_take 50 (items.get ⟨i, h⟩).title).length ≤ 50 := by
  refine ⟨?_, ?_, ?_, ?_⟩
  · rw [slot_triple, dif_pos h]
  · rw [slot_pair, dif_pos h]
  · exact List.take_prefix 50 _
  · simp only [py_take, String.length, List.length_take]
    omega

/-- Witness for C10: a 60-character title is cut to its first 50
characters; the date and link are written unchanged. -/
theorem facet_slot_title_truncated_witness :
    slot_triple "뉴스" 0
        [⟨String.mk (List.replicate 60 'x'), "2025-01-02", "https://n.news.naver.com/a"⟩] =
      [("뉴스" ++ toString 1, py_take 50 (String.mk (List.replicate 60 'x'))),
       ("뉴스" ++ toString 1 ++ "_일자", "2025-01-02"),
       ("뉴스" ++ toString 1 ++ "_링크", "https://n.news.naver.com/a")] ∧
    slot_pair "뉴스" 0
        [⟨String.mk (List.replicate 60 'x'), "2025-01-02", "https://n.news.naver.com/a"⟩] =
      [("뉴스" ++ toString 1, py_take 50 (String.mk (List.replicate 60 'x'))),
       ("뉴스" ++ toString 1 ++ "_일자", "2025-01-02")] ∧
    (py_take 50 (String.mk (List.replicate 60 'x'))).data <+:
      (String.mk (List.replicate 60 'x')).data ∧
    (py_take 50 (String.mk (List.replicate 60 'x'))).length ≤ 50 :=
  facet_slot_title_truncated "뉴스"
    [⟨String.mk (List.replicate 60 'x'), "2025-01-02", "https://n.news.naver.com/a"⟩]
    0 (by decide)

/-! ### C3: the date cutoff is inclusive, not exclusive -/

lemma recent_items_loop_singleton (dateOf : π → Int) (entry : π → FacetItem)
    (cutoff : Int) (maxItems : Nat) (p : π) (hd : cutoff ≤ dateOf p) :
    recent_items_loop dateOf entry cutoff maxItems [p] [] = [entry p] := by
  simp [recent_items_loop, hd]

lemma recent_items_loop_all_old (dateOf : π → Int) (entry : π → FacetItem)
    (cutoff : Int) (maxItems : Nat) :
    ∀ (items : List π) (acc : List FacetItem),
      (∀ p ∈ items, dateOf p < cutoff) →
      recent_items_loop dateOf entry cutoff maxItems items acc = acc := by
  intro items
  induction items with
  | nil => intro acc _; rfl
  | cons p rest ih =>
    intro acc hall
    have hp : dateOf p < cutoff := hall p (by simp)
    rw [recent_items_loop, if_neg (by omega)]
    exact ih acc (fun q hq => hall q (by simp [hq]))

lemma news_clusters_loop_all_old (cutoff : Int) (maxNews : Nat) :
    ∀ (clusters : List (List NewsItem)) (acc : List FacetItem),
      (∀ c ∈ clusters, ∀ p ∈ c, p.date < cutoff) →
      news_clusters_loop cutoff maxNews clusters acc = acc := by
  intro clusters
  induction clusters with
  | nil => intro acc _; rfl
  | cons c rest ih =>
    intro acc hall
    have hinner : recent_items_loop NewsItem.date news_entry cutoff maxNews c acc
        = acc :=
      recent_items_loop_all_old _ _ _ _ c acc (hall c (by simp))
    rw [news_clusters_loop, hinner]
    by_cases hlen : maxNews ≤ acc.length
    · rw [if_pos hlen]
    · rw [if_neg hlen]
      exact ih acc (fun d hd p hp => hall d (by simp [hd]) p hp)

/-- **C3 (counterexample).** The claim says an item whose date equals the
cutoff is excluded; but the source compares with `>=`
(`if news_date >= cutoff_date`), so a news item dated exactly at the
cutoff is returned. -/
theorem news_item_at_cutoff_is_included :
    get_recent_news (.ok [[⟨0, "보도자료", "001", "0000001"⟩]]) 0 3 =
      [news_entry ⟨0, "보도자료", "001", "0000001"⟩] := by
  decide

/-- **C3 (amended).** For every facet fetch (news, filing, IR), the cutoff
bound is inclusive: a provider item dated exactly at the cutoff is
returned, and only items dated strictly before the cutoff are excluded. -/
theorem facet_cutoff_is_inclusive :
    (∀ (cutoff : Int) (maxN : Nat) (p : NewsItem), p.date = cutoff →
      get_recent_news (.ok [[p]]) cutoff maxN = [news_entry p]) ∧
    (∀ (cutoff : Int) (maxN : Nat) (p : NoticeItem), p.date = cutoff →
      get_recent_notices (.ok [p]) cutoff maxN = [notice_entry p]) ∧
    (∀ (cutoff : Int) (maxN : Nat) (p : IRItem), p.date = cutoff →
      get_recent_ir (.ok [p]) cutoff maxN = [ir_entry p]) ∧
    (∀ (cutoff : Int) (maxN : Nat) (clusters : List (List NewsItem)),
      (∀ c ∈ clusters, ∀ p ∈ c, p.date < cutoff) →
      get_recent_news (.ok clusters) cutoff maxN = []) ∧
    (∀ (cutoff : Int) (maxN : Nat) (items : List NoticeItem),
      (∀ p ∈ items, p.date < cutoff) →
      get_recent_notices (.ok items) cutoff maxN = []) ∧
    (∀ (cutoff : Int) (maxN : Nat) (items : List IRItem),
      (∀ p ∈ items, p.date < cutoff) →
      get_recent_ir (.ok items) cutoff maxN = []) := by
  refine ⟨?_, ?_, ?_, ?_, ?_, ?_⟩
  · intro cutoff maxN p hd
    have hle : cutoff ≤ p.date := le_of_eq hd.symm
    rw [get_recent_news, news_clusters_loop,
      recent_items_loop_singleton _ _ _ _ _ hle]
    simp [news_clusters_loop]
  · intro cutoff maxN p hd
    rw [get_recent_notices, recent_items_loop_singleton _ _ _ _ _ (le_of_eq hd.symm)]
  · intro cutoff maxN p hd
    rw [get_recent_ir, recent_items_loop_singleton _ _ _ _ _ (le_of_eq hd.symm)]
  · intro cutoff maxN clusters hall
    rw [get_recent_news]
    exact news_clusters_loop_all_old cutoff maxN clusters [] hall
  · intro cutoff maxN items hall
    rw [get_recent_notices]
    exact recent_items_loop_all_old _ _ _ _ items [] hall
  · intro cutoff maxN items hall
    rw [get_recent_ir]
    exact recent_items_loop_all_old _ _ _ _ items [] hall

/-- Witness for C3 (amended): items dated exactly at cutoff 5 are
returned by all three fetchers; items dated 4 (strictly older) are
excluded by all three. -/
theorem facet_cutoff_is_inclusive_witness :
    get_recent_news (.ok [[⟨5, "제목", "001", "0001"⟩]]) 5 3 =
      [news_entry ⟨5, "제목", "001", "0001"⟩] ∧
    get_recent_notices (.ok [⟨5, "공시제목", "20250102000123_00"⟩]) 5 3 =
      [notice_entry ⟨5, "공시제목", "20250102000123_00"⟩] ∧
    get_recent_ir (.ok [⟨5, "IR제목"⟩]) 5 3 = [ir_entry ⟨5, "IR제목"⟩] ∧
    get_recent_news (.ok [[⟨4, "제목", "001", "0001"⟩]]) 5 3 = [] ∧
    get_recent_notices (.ok [⟨4, "공시제목", "x"⟩]) 5 3 = [] ∧
    get_recent_ir (.ok [⟨4, "IR제목"⟩]) 5 3 = [] :=
  ⟨facet_cutoff_is_inclusive.1 5 3 _ rfl,
   facet_cutoff_is_inclusive.2.1 5 3 _ rfl,
   facet_cutoff_is_inclusive.2.2.1 5 3 _ rfl,
   facet_cutoff_is_inclusive.2.2.2.1 5 3 _ (by decide),
   facet_cutoff_is_inclusive.2.2.2.2.1 5 3 _ (by decide),
   facet_cutoff_is_inclusive.2.2.2.2.2 5 3 _ (by decide)⟩

/-! ### C5: per-record, per-facet failure isolation -/

lemma enrich_rows_loop_length (f : Nat → σ → τ) :
    ∀ (records : List σ) (idx : Nat),
      (enrich_rows_loop f records idx).length = records.length := by
  intro records
  induction records with
  | nil => intro idx; rfl
  | cons r rest ih =>
    intro idx
    simp [enrich_rows_loop, ih]

lemma enrich_rows_loop_get? (f : Nat → σ → τ) :
    ∀ (records : List σ) (idx i : Nat),
      (enrich_rows_loop f records idx).get? i =
        (records.get? i).map (f (idx + i)) := by
  intro records
  induction records with
  | nil => intro idx i; rfl
  | cons r rest ih =>
    intro idx i
    cases i with
    | zero => rfl
    | succ n =>
      rw [enrich_rows_loop]
      show (enrich_rows_loop f rest (idx + 1)).get? n = _
      rw [ih (idx + 1) n]
      have harith : idx + 1 + n = idx + (n + 1) := by omega
      rw [harith]
      rfl

/-- **C5.** A fetch-level failure in one facet call degrades only that
facet of that record, and the enrichment loops never abort: if record
`j`'s profile fetch fails, its sector and description are both empty
strings while every other record is enriched from its own fetch; if
record `j`'s news fetch fails, its news facet is the empty list — so the
record still gets its filing and IR facets from their own fetches — while
every other record's facet row is computed unchanged; and both stages
always emit exactly one output row per input row. -/
theorem enrichment_failure_isolation (records : List σ)
    (detailF : Nat → Except Unit DetailPayload)
    (newsF : Nat → Except Unit (List (List NewsItem)))
    (noticeF : Nat → Except Unit (List NoticeItem))
    (irF : Nat → Except Unit (List IRItem))
    (cutoff : Int) (j : Nat) (hj : j < records.length)
    (hd : detailF j = .error ()) (hn : newsF j = .error ()) :
    (enrich_detail_stage detailF records).length = records.length ∧
    (enrich_facets_stage newsF noticeF irF cutoff records).length =
      records.length ∧
    (enrich_detail_stage detailF records).get? j =
      some (records.get ⟨j, hj⟩, { sector := "", description := "" }) ∧
    (∀ i, i ≠ j → (enrich_detail_stage detailF records).get? i =
      (records.get? i).map (fun r => (r, get_stock_detail (detailF i)))) ∧
    (enrich_facets_stage newsF noticeF irF cutoff records).get? j =
      some (records.get ⟨j, hj⟩,
        enrich_facet_columns []
          (get_recent_notices (noticeF j) cutoff 3)
          (get_recent_ir (irF j) cutoff 3)) ∧
    (∀ i, i ≠ j → (enrich_facets_stage newsF noticeF irF cutoff records).get? i =
      (records.get? i).map
        (fun r => (r, enrich_facets_row (newsF i) (noticeF i) (irF i) cutoff))) := by
  refine ⟨?_, ?_, ?_, ?_, ?_, ?_⟩
  · exact enrich_rows_loop_length _ records 0
  · exact enrich_rows_loop_length _ records 0
  · rw [enrich_detail_stage, enrich_rows_loop_get?, List.get?_eq_get hj]
    show some _ = _
    rw [Nat.zero_add, hd]
    rfl
  · intro i _
    rw [enrich_detail_stage, enrich_rows_loop_get?, Nat.zero_add]
  · rw [enrich_facets_stage, enrich_rows_loop_get?, List.get?_eq_get hj]
    show some _ = _
    rw [Nat.zero_add, hn]
    rfl
  · intro i _
    rw [enrich_facets_stage, enrich_rows_loop_get?, Nat.zero_add]

/-- Witness for C5: two records; record 0's profile and news fetches fail
while record 1's fetches succeed. -/
theorem enrichment_failure_isolation_witness :
    (enrich_detail_stage failDetailF ["r0", "r1"]).length = 2 ∧
    (enrich_facets_stage failNewsF okNoticeF okIrF 5 ["r0", "r1"]).length = 2 ∧
    (enrich_detail_stage failDetailF ["r0", "r1"]).get? 0 =
      some ("r0", { sector := "", description := "" }) ∧
    (∀ i, i ≠ 0 → (enrich_detail_stage failDetailF ["r0", "r1"]).get? i =
      ((["r0", "r1"] : List String).get? i).map
        (fun r => (r, get_stock_detail (failDetailF i)))) ∧
    (enrich_facets_stage failNewsF okNoticeF okIrF 5 ["r0", "r1"]).get? 0 =
      some ("r0",
        enrich_facet_columns []
          (get_recent_notices (okNoticeF 0) 5 3)
          (get_recent_ir (okIrF 0) 5 3)) ∧
    (∀ i, i ≠ 0 →
      (enrich_facets_stage failNewsF okNoticeF okIrF 5 ["r0", "r1"]).get? i =
      ((["r0", "r1"] : List String).get? i).map
        (fun r => (r, enrich_facets_row (failNewsF i) (okNoticeF i) (okIrF i) 5))) :=
  enrichment_failure_isolation ["r0", "r1"] failDetailF failNewsF okNoticeF okIrF
    5 0 (by decide) rfl rfl

/-! ### C6: resolution of unknown codes -/

/-- **C6 (counterexample).** The claim says every code-bearing field
resolves an unknown code to the empty string; but 시장구분 (market
segment) is produced with pandas `Series.map(dict)`, which sends the
unknown code `"9"` to the missing marker `NaN` (`none`), not to `""`. -/
theorem sosok_unknown_code_not_empty_string :
    map_series_dict sosok_map "9" ≠ some "" := by
  decide

/-- **C6 (amended).** For a raw code absent from the corresponding lookup
table, the management-reason and market-alert fields resolve to the empty
string (never an error), while the market-segment, status and
change-classification fields resolve to the missing marker `NaN`
(`none`), not to an empty string. -/
theorem unknown_code_resolution (c : String)
    (h1 : sosok_map.lookup c = none)
    (h2 : status_tag_map.lookup c = none)
    (h3 : risefall_map.lookup c = none)
    (h4 : management_reason_map.lookup c = none)
    (h5 : market_alert_map.lookup c = none) :
    map_series_dict sosok_map c = none ∧
    map_series_dict status_tag_map c = none ∧
    map_series_dict risefall_map c = none ∧
    map_code_or_empty management_reason_map (some c) = "" ∧
    map_code_or_empty market_alert_map (some c) = "" := by
  refine ⟨h1, h2, h3, ?_, ?_⟩
  · rw [map_code_or_empty, h4]
    rfl
  · rw [map_code_or_empty, h5]
    rfl

/-- Witness for C6 (amended) at the concrete unknown code `"99"`. -/
theorem unknown_code_resolution_witness :
    map_series_dict sosok_map "99" = none ∧
    map_series_dict status_tag_map "99" = none ∧
    map_series_dict risefall_map "99" = none ∧
    map_code_or_empty management_reason_map (some "99") = "" ∧
    map_code_or_empty market_alert_map (some "99") = "" :=
  unknown_code_resolution "99" (by decide) (by decide) (by decide) (by decide)
    (by decide)

/-! ### C8: exchange-code normalization -/

/-- **C8 (counterexample).** The claim says a code already starting with
`'A'` is left unchanged; but line 168 prepends unconditionally
(`'A' + code`), so `"A005930"` becomes `"AA005930"`. -/
theorem normalize_stock_code_double_A :
    normalize_stock_code "A005930" ≠ "A005930" ∧
    normalize_stock_code "A005930" = "AA005930" := by
  constructor
  · decide
  · rfl

/-- **C8 (amended).** The Field Mapper normalizes the exchange code by
prepending the fixed letter `'A'` unconditionally — without checking
whether it is already present — so the output always has exactly one more
leading `'A'` than the input; a raw code that already starts with `'A'`
comes out doubly prefixed. -/
theorem normalize_stock_code_unconditional (code : String) :
    (normalize_stock_code code).data = 'A' :: code.data := by
  rw [normalize_stock_code, String.data_append]
  rfl

/-! ### C9: what `parse_number` returns -/

lemma py_mantissa?_nonneg (m : List Char) (q : Rat)
    (h : py_mantissa? m = some q) : 0 ≤ q := by
  unfold py_mantissa? at h
  split at h
  · split_ifs at h
    · simp only [Option.some.injEq] at h
      subst h
      exact Nat.cast_nonneg _
  · split_ifs at h
    · simp only [Option.some.injEq] at h
      subst h
      exact add_nonneg (Nat.cast_nonneg _)
        (div_nonneg (Nat.cast_nonneg _) (pow_nonneg (by norm_num) _))
  · simp at h

lemma py_float?_nonneg_of_ne_nan (s : String) (v : PyFloat)
    (h : py_float? s = some v) (hnan : v ≠ PyFloat.nan) : PyFloat.IsNonneg v := by
  unfold py_float? at h
  split_ifs at h with h1 h2
  · simp only [Option.some.injEq] at h
    subst h
    exact absurd rfl hnan
  · simp only [Option.some.injEq] at h
    subst h
    trivial
  · split at h
    · rcases hm : py_mantissa? _ with _ | q
      · rw [hm] at h
        simp at h
      · rw [hm] at h
        simp only [Option.map_some', Option.some.injEq] at h
        subst h
        exact py_mantissa?_nonneg _ _ hm
    · split_ifs at h
      rcases hm : py_mantissa? _ with _ | q
      · rw [hm] at h
        simp at h
      · rw [hm] at h
        simp only [Option.map_some', Option.some.injEq] at h
        subst h
        exact mul_nonneg (py_mantissa?_nonneg _ _ hm) (pow_nonneg (by norm_num) _)
    · simp at h

/-- **C9 (counterexample).** The claim says `parse_number` returns either
`None` or a non-negative number for every input string; but Python
`float('nan')` succeeds — it raises nothing for the enclosing `try` to
catch — so `parse_number("nan")` returns NaN, which is neither `None` nor
non-negative (`nan >= 0` is false). -/
theorem parse_number_nan_not_nonneg :
    parse_number "nan" = some PyFloat.nan ∧ ¬ PyFloat.IsNonneg PyFloat.nan :=
  ⟨rfl, fun h => h⟩

/-- **C9 (amended).** For every input string, `parse_number` returns
either the missing marker (`None`) or a value that is NaN or
non-negative; apart from the case-insensitive non-finite spellings
(`nan`, `inf`, `infinity`) that `float()` accepts, every parsed value is
non-negative, because `+`, `-` and `%` are stripped before conversion —
so a falling stock's change value and change rate are rendered as their
magnitudes: `"-3.50%"` parses to the finite value `7/2` (that is, `3.5`),
the same result as `"+3.50%"`. -/
theorem parse_number_nonneg_except_nan :
    (∀ (t : String) (v : PyFloat), parse_number t = some v →
      v ≠ PyFloat.nan → PyFloat.IsNonneg v) ∧
    (∀ (t : String) (q : Rat), parse_number t = some (PyFloat.finite q) → 0 ≤ q) ∧
    parse_number "-3.50%" = some (PyFloat.finite ((7 : Rat) / 2)) ∧
    parse_number "-3.50%" = parse_number "+3.50%" := by
  have hmain : ∀ (t : String) (v : PyFloat), parse_number t = some v →
      v ≠ PyFloat.nan → PyFloat.IsNonneg v := by
    intro t v h hnan
    rw [parse_number] at h
    split_ifs at h
    exact py_float?_nonneg_of_ne_nan _ _ h hnan
  refine ⟨hmain, ?_, ?_, ?_⟩
  · intro t q h
    exact hmain t _ h (by intro hx; cases hx)
  · have h1 : parse_number "-3.50%" =
        some (PyFloat.finite ((digits_val ['3'] : Rat) +
          (digits_val ['5', '0'] : Rat) / (10 : Rat) ^ 2)) := rfl
    rw [h1]
    simp only [Option.some.injEq, PyFloat.finite.injEq]
    rw [(by decide : digits_val ['3'] = 3), (by decide : digits_val ['5', '0'] = 50)]
    norm_num
  · rfl

/-- Witness for C9 (amended): the value parsed from the falling-stock
text `"-3.50%"` is finite and non-negative. -/
theorem parse_number_nonneg_except_nan_witness :
    parse_number "-3.50%" = some (PyFloat.finite ((7 : Rat) / 2)) ∧
    PyFloat.IsNonneg (PyFloat.finite ((7 : Rat) / 2)) ∧ 0 ≤ ((7 : Rat) / 2) :=
  ⟨parse_number_nonneg_except_nan.2.2.1,
   parse_number_nonneg_except_nan.1 "-3.50%" (PyFloat.finite ((7 : Rat) / 2))
     parse_number_nonneg_except_nan.2.2.1 (by intro hx; cases hx),
   parse_number_nonneg_except_nan.2.1 "-3.50%" ((7 : Rat) / 2)
     parse_number_nonneg_except_nan.2.2.1⟩

/-! ### C7: hyperlink conversion and link-column hiding -/

lemma isPrefixOf_self (l : List Char) : l.isPrefixOf l = true := by
  induction l with
  | nil => rfl
  | cons c cs ih =>
    show (c == c && cs.isPrefixOf cs) = true
    simp [ih]

lemma has_sub_of_suffix (pat l : List Char) (h : pat <:+ l) :
    has_sub pat l = true := by
  obtain ⟨t, ht⟩ := h
  subst ht
  induction t with
  | nil =>
    rw [List.nil_append]
    cases pat with
    | nil => rfl
    | cons c cs =>
      rw [has_sub]
      simp [isPrefixOf_self]
  | cons c t ih =>
    rw [List.cons_append, has_sub]
    simp [ih]

lemma set_hyperlink_get?_other (header : List String) (row : List Cell)
    (A : String) (j : Nat) (h : A ∈ header → j ≠ header.indexOf A) :
    (set_hyperlink_in_row header row A).get? j = row.get? j := by
  unfold set_hyperlink_in_row
  by_cases hA : A ∈ header
  · rw [if_pos hA]
    split
    · split_ifs
      · rfl
      · exact List.get?_set_ne _ _ (Ne.symm (h hA))
    · rfl
  · rw [if_neg hA]

lemma fold_set_hyperlink_get?_other (header : List String) :
    ∀ (names : List String) (row : List Cell) (j : Nat),
      (∀ A ∈ names, A ∈ header → j ≠ header.indexOf A) →
      (names.foldl (set_hyperlink_in_row header) row).get? j = row.get? j := by
  intro names
  induction names with
  | nil => intro row j _; rfl
  | cons A rest ih =>
    intro row j hall
    rw [List.foldl_cons, ih _ j (fun B hB => hall B (by simp [hB]))]
    exact set_hyperlink_get?_other header row A j (hall A (by simp))

lemma set_hyperlink_self (header : List String) (row : List Cell)
    (name : String) (tc lc : Cell) (hmem : name ∈ header)
    (hti : row.get? (header.indexOf name) = some tc)
    (hli : row.get? (header.indexOf (link_col_name name)) = some lc) :
    (set_hyperlink_in_row header row name).get? (header.indexOf name) =
      if lc.value = "" then some tc
      else some { tc with hyper := some lc.value, styled := true } := by
  unfold set_hyperlink_in_row
  rw [if_pos hmem, hli, hti]
  dsimp only
  by_cases hv : lc.value = ""
  · rw [if_pos hv, if_pos hv]
    exact hti
  · rw [if_neg hv, if_neg hv, List.get?_set_eq, hti]
    rfl

lemma title_col_ne_link_col :
    ∀ A ∈ link_title_columns, ∀ B ∈ link_title_columns,
      A ≠ link_col_name B := by
  decide

/-- **C7.** In the materialized sheet, for every data row and every facet
title column (news-1..3, filing-1..3, i.e. `뉴스1`–`공시3`): when the
paired link column's cell holds a non-empty value, the title cell becomes
a styled hyperlink whose target is exactly that value; when the link cell
is empty, the title cell is left untouched (plain text); and every header
column whose name carries the `_링크` suffix is hidden afterwards. -/
theorem materializer_hyperlinks_and_hidden_columns (header : List String)
    (row : List Cell) (name : String) (hname : name ∈ link_title_columns)
    (hmem : name ∈ header)
    (hlmem : link_col_name name ∈ header) (tc lc : Cell)
    (hti : row.get? (header.indexOf name) = some tc)
    (hli : row.get? (header.indexOf (link_col_name name)) = some lc) :
    (lc.value ≠ "" →
      (apply_hyperlinks_row header row).get? (header.indexOf name) =
        some { tc with hyper := some lc.value, styled := true }) ∧
    (lc.value = "" →
      (apply_hyperlinks_row header row).get? (header.indexOf name) = some tc) ∧
    (∀ (i : Nat) (col : String), header.get? i = some col →
      "_링크".data <:+ col.data → (hidden_flags header).get? i = some true) := by
  obtain ⟨s, t, hsplit⟩ := List.append_of_mem hname
  have hnodup6 : link_title_columns.Nodup := by decide
  have hnodup' : (s ++ name :: t).Nodup := hsplit ▸ hnodup6
  obtain ⟨hsN, htN, hdisj⟩ := List.nodup_append.mp hnodup'
  have hnameNotS : name ∉ s := fun hin =>
    (List.disjoint_left.mp hdisj hin) (by simp)
  have hnameNotT : name ∉ t := (List.nodup_cons.mp htN).1
  have hsSub : ∀ A ∈ s, A ∈ link_title_columns := by
    intro A hA
    rw [hsplit]
    exact List.mem_append.mpr (Or.inl hA)
  have htSub : ∀ A ∈ t, A ∈ link_title_columns := by
    intro A hA
    rw [hsplit]
    exact List.mem_append.mpr (Or.inr (by simp [hA]))
  have hIdxNe : ∀ A ∈ header, A ≠ name →
      header.indexOf name ≠ header.indexOf A := by
    intro A hAh hne heq
    exact hne ((List.indexOf_inj hmem hAh).mp heq).symm
  have hIdxNeLi : ∀ A ∈ header, A ≠ link_col_name name →
      header.indexOf (link_col_name name) ≠ header.indexOf A := by
    intro A hAh hne heq
    exact hne ((List.indexOf_inj hlmem hAh).mp heq).symm
  have hrow1ti : (s.foldl (set_hyperlink_in_row header) row).get?
      (header.indexOf name) = some tc := by
    rw [fold_set_hyperlink_get?_other header s row _ ?_]
    · exact hti
    · intro A hA hAh
      exact hIdxNe A hAh (fun he => hnameNotS (he ▸ hA))
  have hrow1li : (s.foldl (set_hyperlink_in_row header) row).get?
      (header.indexOf (link_col_name name)) = some lc := by
    rw [fold_set_hyperlink_get?_other header s row _ ?_]
    · exact hli
    · intro A hA hAh
      exact hIdxNeLi A hAh (title_col_ne_link_col A (hsSub A hA) name hname)
  have hstep := set_hyperlink_self header
    (s.foldl (set_hyperlink_in_row header) row) name tc lc hmem hrow1ti hrow1li
  have hafter : (apply_hyperlinks_row header row).get? (header.indexOf name) =
      (set_hyperlink_in_row header (s.foldl (set_hyperlink_in_row header) row)
        name).get? (header.indexOf name) := by
    rw [apply_hyperlinks_row, hsplit, List.foldl_append, List.foldl_cons]
    exact fold_set_hyperlink_get?_other header t _ _
      (fun A hA hAh => hIdxNe A hAh (fun he => hnameNotT (he ▸ hA)))
  refine ⟨?_, ?_, ?_⟩
  · intro hv
    rw [hafter, hstep, if_neg hv]
  · intro hv
    rw [hafter, hstep, if_pos hv]
  · intro i col hcol hsuf
    rw [hidden_flags, List.get?_map, hcol]
    simp [is_link_column, has_sub_of_suffix _ _ hsuf]

/-- Witness for C7: a two-column sheet whose `뉴스1_링크` cell is
non-empty, and a check that the `뉴스1_링크` header column is hidden. -/
theorem materializer_hyperlinks_and_hidden_columns_witness :
    (({ value := "http://x", hyper := none, styled := false : Cell}.value ≠ "" →
      (apply_hyperlinks_row ["뉴스1", "뉴스1_링크"]
          [⟨"기사제목", none, false⟩, ⟨"http://x", none, false⟩]).get?
        ((["뉴스1", "뉴스1_링크"] : List String).indexOf "뉴스1") =
        some { value := "기사제목", hyper := some "http://x", styled := true }) ∧
    ({ value := "http://x", hyper := none, styled := false : Cell}.value = "" →
      (apply_hyperlinks_row ["뉴스1", "뉴스1_링크"]
          [⟨"기사제목", none, false⟩, ⟨"http://x", none, false⟩]).get?
        ((["뉴스1", "뉴스1_링크"] : List String).indexOf "뉴스1") =
        some ⟨"기사제목", none, false⟩) ∧
    (∀ (i : Nat) (col : String),
      (["뉴스1", "뉴스1_링크"] : List String).get? i = some col →
      "_링크".data <:+ col.data →
      (hidden_flags ["뉴스1", "뉴스1_링크"]).get? i = some true)) :=
  materializer_hyperlinks_and_hidden_columns ["뉴스1", "뉴스1_링크"]
    [⟨"기사제목", none, false⟩, ⟨"http://x", none, false⟩] "뉴스1"
    (by decide) (by decide) (by decide)
    ⟨"기사제목", none, false⟩ ⟨"http://x", none, false⟩ rfl rfl

end StockAnalysis
